import Mathlib

/-!
Verification of the Voice Mode dictation core: a shallow embedding of
`src/core/state_machine.py`, `src/core/audio_recorder.py` and the
coordinator / UI-bridge parts of `src/app.py`, with theorems settling the
specification's claims about them.

Conventions of the embedding:
* Python `datetime` timestamps become `Nat` values passed explicitly to the
  operations that read the clock (`datetime.now()`), with monotonicity of the
  clock stated as a hypothesis where a claim needs it.
* The keyword-argument payload of `transition_to` becomes an association list
  `Payload := List (String × String)`.
* Registered enter/exit callbacks are external side effects: the machine
  records which states have a callback registered (the `on_state_enter` /
  `on_state_exit` dictionaries), and `transition_to` returns the trace of
  callback invocations it performs, in order, as a `List Event`.  Whether a
  given callback raises is supplied by a `CallbackBehavior` parameter; the
  Python code catches such exceptions inside `transition_to`
  (`try ... except Exception`), which the embedding reflects by recording the
  raise in the event while the control flow is unaffected.
-/

/-- `AppState` enum of `state_machine.py`. -/
inductive AppState
  | INITIALIZING
  | IDLE
  | RECORDING
  | PROCESSING
  | REFINING
  | COPYING
  | ERROR
  | PAUSED
deriving DecidableEq, Repr

open AppState

instance : Fintype AppState :=
  ⟨⟨{INITIALIZING, IDLE, RECORDING, PROCESSING, REFINING, COPYING, ERROR, PAUSED}, by decide⟩,
   by intro x; cases x <;> decide⟩

/-- Keyword-argument payload stored as state data (`**kwargs`). -/
abbrev Payload := List (String × String)

/-- State of a `StateMachine` object: the mutable fields set in
`StateMachine.__init__`.  The callback dictionaries are modelled by their
domains (whether a callback is registered for a state). -/
structure Machine where
  current_state : AppState
  previous_state : Option AppState
  state_history : List (AppState × Nat)
  on_state_enter : AppState → Bool
  on_state_exit : AppState → Bool
  state_data : Payload

/-- External behaviour of the registered callbacks: whether the call raises
an exception (which `transition_to` catches and logs). -/
structure CallbackBehavior where
  enter_raises : AppState → Payload → Bool
  exit_raises : AppState → Bool

/-- A callback invocation performed by `transition_to`, in trace order.
`raised` records whether the callback raised (the exception is caught). -/
inductive Event
  | exitCall (s : AppState) (raised : Bool)
  | enterCall (s : AppState) (kwargs : Payload) (raised : Bool)
deriving DecidableEq, Repr

/-- `StateMachine._is_valid_transition`. -/
def _is_valid_transition (from_state to_state : AppState) : Bool :=
  -- ERROR and PAUSED can be entered from any state
  if to_state = ERROR ∨ to_state = PAUSED then true
  -- Can return to IDLE from ERROR or PAUSED
  else if to_state = IDLE ∧ (from_state = ERROR ∨ from_state = PAUSED) then true
  else
    -- the valid_transitions dictionary; a missing key yields []
    let valid_transitions : AppState → List AppState := fun s =>
      match s with
      | INITIALIZING => [IDLE]
      | IDLE => [RECORDING]
      | RECORDING => [PROCESSING, IDLE]
      | PROCESSING => [REFINING, COPYING]
      | REFINING => [COPYING]
      | COPYING => [IDLE]
      | _ => []
    to_state ∈ valid_transitions from_state

/-- `StateMachine.transition_to(new_state, **kwargs)`.  `now` is the value
`datetime.now()` returns during the call; `beh` supplies whether each invoked
callback raises.  Returns the Python return value, the machine after the
call, and the trace of callback invocations performed. -/
def transition_to (m : Machine) (beh : CallbackBehavior) (new_state : AppState)
    (kwargs : Payload) (now : Nat) : Bool × Machine × List Event :=
  if _is_valid_transition m.current_state new_state then
    -- exit callback for the (old) current state, exceptions caught
    let exitEvents :=
      if m.on_state_exit m.current_state then
        [Event.exitCall m.current_state (beh.exit_raises m.current_state)]
      else []
    -- state update and history append
    let m' : Machine :=
      { m with
        previous_state := some m.current_state
        current_state := new_state
        state_data := kwargs
        state_history := m.state_history ++ [(new_state, now)] }
    -- enter callback for the new state with **kwargs, exceptions caught
    let enterEvents :=
      if m.on_state_enter new_state then
        [Event.enterCall new_state kwargs (beh.enter_raises new_state kwargs)]
      else []
    (true, m', exitEvents ++ enterEvents)
  else
    (false, m, [])

/-- `StateMachine.__init__` (fresh machine; no callbacks registered yet). -/
def mkStateMachine : Machine :=
  { current_state := INITIALIZING
    previous_state := none
    state_history := []
    on_state_enter := fun _ => false
    on_state_exit := fun _ => false
    state_data := [] }

/-- `StateMachine.get_state_data(key)` (default `None`). -/
def get_state_data (m : Machine) (key : String) : Option String :=
  (m.state_data.find? (fun kv => kv.1 = key)).map Prod.snd

/-- `StateMachine.reset()`: forces IDLE, clears previous state and data;
the history is left untouched. -/
def StateMachine.reset (m : Machine) : Machine :=
  { m with current_state := IDLE, previous_state := none, state_data := [] }

/-- `StateMachine.get_state_duration()`; `now` is `datetime.now()`. -/
def get_state_duration (m : Machine) (now : Nat) : Int :=
  match m.state_history.getLast? with
  | none => 0
  | some last => (now : Int) - last.2

/-- The transition table exactly as the claim lists it (spec side of the
refinement): the eight listed edges, the universal edges into ERROR and
PAUSED, and the ERROR/PAUSED → IDLE escapes. -/
def claimAllowed (f t : AppState) : Bool :=
  (f = INITIALIZING ∧ t = IDLE) ∨
  (f = IDLE ∧ t = RECORDING) ∨
  (f = RECORDING ∧ t = PROCESSING) ∨
  (f = RECORDING ∧ t = IDLE) ∨
  (f = PROCESSING ∧ t = REFINING) ∨
  (f = PROCESSING ∧ t = COPYING) ∨
  (f = REFINING ∧ t = COPYING) ∨
  (f = COPYING ∧ t = IDLE) ∨
  t = ERROR ∨ t = PAUSED ∨
  (f = ERROR ∧ t = IDLE) ∨
  (f = PAUSED ∧ t = IDLE)

/-- The boolean returned by `transition_to` is `_is_valid_transition` of the
current state and the target. -/
theorem transition_to_fst (m : Machine) (beh : CallbackBehavior) (t : AppState)
    (p : Payload) (now : Nat) :
    (transition_to m beh t p now).1 = _is_valid_transition m.current_state t := by
  unfold transition_to
  by_cases h : _is_valid_transition m.current_state t = true <;> simp [h]

/-- C1: from any machine, `transition_to(to)` succeeds exactly when the pair
(current_state, to) is one listed by the claim's transition table (the eight
edges plus the universal ERROR/PAUSED edges and the ERROR/PAUSED → IDLE
escapes); in particular ERROR and PAUSED are reachable from every state. -/
theorem C1_transition_table_closure (m : Machine) (beh : CallbackBehavior)
    (t : AppState) (p : Payload) (now : Nat) :
    ((transition_to m beh t p now).1 = claimAllowed m.current_state t) ∧
    (transition_to m beh ERROR p now).1 = true ∧
    (transition_to m beh PAUSED p now).1 = true := by
  have key : ∀ f t' : AppState, _is_valid_transition f t' = claimAllowed f t' := by
    decide
  refine ⟨?_, ?_, ?_⟩ <;> rw [transition_to_fst, key] <;> cases m.current_state <;> decide

/-- Shared witness inputs: a machine with an enter and an exit callback
registered for every state, and a behaviour whose enter callbacks raise. -/
def wMachine : Machine :=
  { current_state := INITIALIZING
    previous_state := none
    state_history := []
    on_state_enter := fun _ => true
    on_state_exit := fun _ => true
    state_data := [] }

/-- Callback behaviour whose enter callbacks raise an exception. -/
def wBehRaise : CallbackBehavior :=
  { enter_raises := fun _ _ => true, exit_raises := fun _ => false }

/-- Callback behaviour that never raises. -/
def wBehOk : CallbackBehavior :=
  { enter_raises := fun _ _ => false, exit_raises := fun _ => false }

/-- C2: on a valid call, `transition_to` first emits the exit-callback event
for the old state (if one is registered; it takes no payload), then produces
the machine with `previous_state` set to the old current state,
`current_state` set to the target, the state data replaced by the payload and
`(target, now)` appended to the history, then emits the enter-callback event
for the target carrying the payload (if registered), and returns success. -/
theorem C2_valid_transition_effects (m : Machine) (beh : CallbackBehavior)
    (t : AppState) (p : Payload) (now : Nat)
    (h : _is_valid_transition m.current_state t = true) :
    transition_to m beh t p now =
      (true,
       { m with
         previous_state := some m.current_state
         current_state := t
         state_data := p
         state_history := m.state_history ++ [(t, now)] },
       (if m.on_state_exit m.current_state then
          [Event.exitCall m.current_state (beh.exit_raises m.current_state)]
        else []) ++
       (if m.on_state_enter t then
          [Event.enterCall t p (beh.enter_raises t p)]
        else [])) := by
  simp [transition_to, h]

/-- Witness for C2 at a concrete valid call (INITIALIZING → IDLE). -/
theorem C2_valid_transition_effects_witness :
    _is_valid_transition wMachine.current_state IDLE = true ∧
    transition_to wMachine wBehOk IDLE [("k", "v")] 7 =
      (true,
       { wMachine with
         previous_state := some wMachine.current_state
         current_state := IDLE
         state_data := [("k", "v")]
         state_history := wMachine.state_history ++ [(IDLE, 7)] },
       (if wMachine.on_state_exit wMachine.current_state then
          [Event.exitCall wMachine.current_state (wBehOk.exit_raises wMachine.current_state)]
        else []) ++
       (if wMachine.on_state_enter IDLE then
          [Event.enterCall IDLE [("k", "v")] (wBehOk.enter_raises IDLE [("k", "v")])]
        else [])) :=
  ⟨by decide,
   C2_valid_transition_effects wMachine wBehOk IDLE [("k", "v")] 7 (by decide)⟩

/-- C3: an invalid `transition_to` returns failure and leaves the whole
machine (current state, previous state, state data, history) unchanged with
no callback event; a second call with the same invalid target (any payload,
time or callback behaviour) does exactly the same, so two calls leave the
machine exactly as one call does. -/
theorem C3_invalid_transition_noop (m : Machine) (beh beh' : CallbackBehavior)
    (t : AppState) (p p' : Payload) (now now' : Nat)
    (h : _is_valid_transition m.current_state t = false) :
    transition_to m beh t p now = (false, m, []) ∧
    transition_to (transition_to m beh t p now).2.1 beh' t p' now' = (false, m, []) := by
  have h1 : transition_to m beh t p now = (false, m, []) := by
    simp [transition_to, h]
  refine ⟨h1, ?_⟩
  rw [h1]
  simp [transition_to, h]

/-- Witness for C3 at a concrete invalid call (fresh machine, target
RECORDING from INITIALIZING). -/
theorem C3_invalid_transition_noop_witness :
    _is_valid_transition mkStateMachine.current_state RECORDING = false ∧
    (transition_to mkStateMachine wBehOk RECORDING [] 3 = (false, mkStateMachine, []) ∧
     transition_to (transition_to mkStateMachine wBehOk RECORDING [] 3).2.1 wBehRaise
       RECORDING [] 4 = (false, mkStateMachine, [])) :=
  ⟨by decide,
   C3_invalid_transition_noop mkStateMachine wBehOk wBehRaise RECORDING [] [] 3 4 (by decide)⟩

/-- C4: on a valid transition, raising callbacks are caught inside
`transition_to`: the call still returns success, the machine still reaches
the target with the history entry appended, the resulting machine does not
depend on whether any callback raises, and any subsequent transition from it
is likewise independent of the earlier callback failure. -/
theorem C4_callback_isolation (m : Machine) (beh beh' beh₂ : CallbackBehavior)
    (t t₂ : AppState) (p p₂ : Payload) (now now₂ : Nat)
    (h : _is_valid_transition m.current_state t = true) :
    (transition_to m beh t p now).1 = true ∧
    (transition_to m beh t p now).2.1 = (transition_to m beh' t p now).2.1 ∧
    (transition_to m beh t p now).2.1.current_state = t ∧
    (transition_to m beh t p now).2.1.state_history = m.state_history ++ [(t, now)] ∧
    transition_to (transition_to m beh t p now).2.1 beh₂ t₂ p₂ now₂ =
      transition_to (transition_to m beh' t p now).2.1 beh₂ t₂ p₂ now₂ := by
  simp [transition_to, h]

/-- Witness for C4: a raising enter callback on INITIALIZING → IDLE versus a
non-raising one, followed by IDLE → RECORDING. -/
theorem C4_callback_isolation_witness :
    _is_valid_transition wMachine.current_state IDLE = true ∧
    ((transition_to wMachine wBehRaise IDLE [] 1).1 = true ∧
     (transition_to wMachine wBehRaise IDLE [] 1).2.1 =
       (transition_to wMachine wBehOk IDLE [] 1).2.1 ∧
     (transition_to wMachine wBehRaise IDLE [] 1).2.1.current_state = IDLE ∧
     (transition_to wMachine wBehRaise IDLE [] 1).2.1.state_history =
       wMachine.state_history ++ [(IDLE, 1)] ∧
     transition_to (transition_to wMachine wBehRaise IDLE [] 1).2.1 wBehOk
         RECORDING [] 2 =
       transition_to (transition_to wMachine wBehOk IDLE [] 1).2.1 wBehOk
         RECORDING [] 2) :=
  ⟨by decide,
   C4_callback_isolation wMachine wBehRaise wBehOk wBehOk IDLE RECORDING [] [] 1 2 (by decide)⟩

/-- An operation performed on the state machine: a `transition_to` call (with
its target, payload and clock reading) or a `reset()` call. -/
inductive Op
  | trans (target : AppState) (kwargs : Payload) (now : Nat)
  | reset

/-- Run a sequence of operations on a machine, collecting one `(target, now)`
pair per successful `transition_to` call, in order of occurrence. -/
def run_trace (beh : CallbackBehavior) : Machine → List Op → Machine × List (AppState × Nat)
  | m, [] => (m, [])
  | m, Op.trans t p now :: ops =>
      let r := transition_to m beh t p now
      let rest := run_trace beh r.2.1 ops
      (rest.1, (if r.1 then [(t, now)] else []) ++ rest.2)
  | m, Op.reset :: ops => run_trace beh (StateMachine.reset m) ops

/-- The clock readings of the `transition_to` calls of a sequence, in order. -/
def opTimes : List Op → List Nat
  | [] => []
  | Op.trans _ _ now :: ops => now :: opTimes ops
  | Op.reset :: ops => opTimes ops

/-- Running a sequence appends exactly the successful-transition trace to the
history: failed transitions and `reset()` contribute nothing. -/
theorem run_trace_history (beh : CallbackBehavior) (ops : List Op) :
    ∀ m : Machine,
      (run_trace beh m ops).1.state_history = m.state_history ++ (run_trace beh m ops).2 := by
  induction ops with
  | nil => intro m; simp [run_trace]
  | cons op ops ih =>
    intro m
    cases op with
    | trans t p now =>
      by_cases h : _is_valid_transition m.current_state t = true
      · simp [run_trace, transition_to, h, ih]
      · simp [run_trace, transition_to, h, ih]
    | reset =>
      simpa [run_trace, StateMachine.reset] using ih (StateMachine.reset m)

/-- The timestamps of the successful-transition trace form a sublist of the
clock readings supplied to the sequence. -/
theorem run_trace_times_sublist (beh : CallbackBehavior) (ops : List Op) :
    ∀ m : Machine,
      ((run_trace beh m ops).2.map Prod.snd).Sublist (opTimes ops) := by
  induction ops with
  | nil => intro m; simp [run_trace, opTimes]
  | cons op ops ih =>
    intro m
    cases op with
    | trans t p now =>
      by_cases h : (transition_to m beh t p now).1 = true
      · simpa [run_trace, opTimes, h] using
          List.Sublist.cons₂ now (ih (transition_to m beh t p now).2.1)
      · simp only [run_trace, opTimes, h]
        exact List.Sublist.cons now (by simpa using ih (transition_to m beh t p now).2.1)
    | reset =>
      simpa [run_trace, opTimes] using ih (StateMachine.reset m)

/-- C5: starting from a machine with empty history, after any operation
sequence the history is exactly the successful-transition trace — one
`(state, timestamp)` entry per successful `transition_to`, in order — so N
successful transitions leave exactly N entries; if the supplied clock
readings are non-decreasing the history timestamps are non-decreasing; and
`reset()` never adds to or removes from the history. -/
theorem C5_history_monotonicity (beh : CallbackBehavior) (ops : List Op) (m : Machine)
    (h0 : m.state_history = [])
    (hmono : List.Pairwise (· ≤ ·) (opTimes ops)) :
    (run_trace beh m ops).1.state_history = (run_trace beh m ops).2 ∧
    List.Pairwise (· ≤ ·) ((run_trace beh m ops).1.state_history.map Prod.snd) ∧
    (∀ m' : Machine, (StateMachine.reset m').state_history = m'.state_history) := by
  have hh := run_trace_history beh ops m
  rw [h0] at hh
  simp only [List.nil_append] at hh
  refine ⟨hh, ?_, fun m' => rfl⟩
  rw [hh]
  exact List.Pairwise.sublist (run_trace_times_sublist beh ops m) hmono

/-- Witness for C5: a five-operation run (two successes, one failure, one
reset, one further success) with non-decreasing clock readings. -/
theorem C5_history_monotonicity_witness :
    mkStateMachine.state_history = [] ∧
    List.Pairwise (· ≤ ·)
      (opTimes [Op.trans IDLE [] 1, Op.trans RECORDING [] 2, Op.trans REFINING [] 2,
                Op.reset, Op.trans RECORDING [] 3]) ∧
    ((run_trace wBehOk mkStateMachine
        [Op.trans IDLE [] 1, Op.trans RECORDING [] 2, Op.trans REFINING [] 2,
         Op.reset, Op.trans RECORDING [] 3]).1.state_history =
      (run_trace wBehOk mkStateMachine
        [Op.trans IDLE [] 1, Op.trans RECORDING [] 2, Op.trans REFINING [] 2,
         Op.reset, Op.trans RECORDING [] 3]).2 ∧
     List.Pairwise (· ≤ ·)
       ((run_trace wBehOk mkStateMachine
          [Op.trans IDLE [] 1, Op.trans RECORDING [] 2, Op.trans REFINING [] 2,
           Op.reset, Op.trans RECORDING [] 3]).1.state_history.map Prod.snd) ∧
     (∀ m' : Machine, (StateMachine.reset m').state_history = m'.state_history)) :=
  ⟨rfl, by decide,
   C5_history_monotonicity wBehOk
     [Op.trans IDLE [] 1, Op.trans RECORDING [] 2, Op.trans REFINING [] 2,
      Op.reset, Op.trans RECORDING [] 3] mkStateMachine rfl (by decide)⟩

/-- Mutable state of `AudioRecorder` relevant to capture: the recording flag
and the list of captured chunks (`audio_data`).  A chunk is appended by the
device callback for each delivered block while recording. -/
structure AudioRecorder where
  is_recording : Bool
  audio_data : List (List Int)

/-- `AudioRecorder._audio_callback`: while recording, appends a copy of the
delivered block to `audio_data`. -/
def _audio_callback (r : AudioRecorder) (indata : List Int) : AudioRecorder :=
  if r.is_recording then { r with audio_data := r.audio_data ++ [indata] } else r

/-- `AudioRecorder.stop_recording()`: returns `none` when not recording or
when no chunk was captured, otherwise the concatenation of all chunks; the
recording flag is cleared. -/
def stop_recording (r : AudioRecorder) : AudioRecorder × Option (List Int) :=
  if r.is_recording = false then (r, none)
  else
    let r' : AudioRecorder := { r with is_recording := false }
    if r.audio_data = [] then (r', none)
    else (r', some r.audio_data.flatten)

/-- The coordinator state used by `VoiceModeApp._on_stop_recording`: the
state machine, the audio recorder and `current_audio`. -/
structure Coordinator where
  machine : Machine
  recorder : AudioRecorder
  current_audio : Option (List Int)

/-- `StateMachine.is_state(*states)`. -/
def is_state (m : Machine) (states : List AppState) : Bool :=
  m.current_state ∈ states

/-- `VoiceModeApp._on_stop_recording`: no-op unless in RECORDING; otherwise
stops the recorder, stores the captured buffer, and either transitions to
PROCESSING and spawns the background `_process_audio` thread (buffer
present) or transitions to IDLE (no buffer).  The returned boolean is
whether the background processing thread was spawned (and hence whether the
transcription engine can be called at all this cycle). -/
def _on_stop_recording (c : Coordinator) (beh : CallbackBehavior) (now : Nat) :
    Coordinator × Bool :=
  if is_state c.machine [RECORDING] = false then (c, false)
  else
    let s := stop_recording c.recorder
    let c1 : Coordinator := { c with recorder := s.1, current_audio := s.2 }
    match s.2 with
    | some _ =>
        ({ c1 with machine := (transition_to c1.machine beh PROCESSING [] now).2.1 }, true)
    | none =>
        ({ c1 with machine := (transition_to c1.machine beh IDLE [] now).2.1 }, false)

/-- C6: if the stop signal arrives in RECORDING and the recorder captured no
chunk (zero samples), the coordinator transitions the machine directly to
IDLE: no background processing is spawned (so the transcription engine is
never called this cycle) and the only history entry added is `(IDLE, now)` —
PROCESSING is never entered. -/
theorem C6_zero_capture_goes_idle (c : Coordinator) (beh : CallbackBehavior) (now : Nat)
    (hrec : c.machine.current_state = RECORDING)
    (hzero : c.recorder.audio_data = []) :
    (_on_stop_recording c beh now).2 = false ∧
    (_on_stop_recording c beh now).1.machine.current_state = IDLE ∧
    (_on_stop_recording c beh now).1.machine.state_history =
      c.machine.state_history ++ [(IDLE, now)] ∧
    (_on_stop_recording c beh now).1.current_audio = none := by
  have hv : _is_valid_transition RECORDING IDLE = true := by decide
  by_cases h : c.recorder.is_recording = false <;>
    simp [_on_stop_recording, is_state, stop_recording, hrec, hzero, h, transition_to, hv]

/-- Witness for C6: a coordinator in RECORDING whose recorder is live but
captured nothing. -/
theorem C6_zero_capture_goes_idle_witness :
    ({ machine := { wMachine with current_state := RECORDING }
       recorder := { is_recording := true, audio_data := [] }
       current_audio := none } : Coordinator).machine.current_state = RECORDING ∧
    ({ machine := { wMachine with current_state := RECORDING }
       recorder := { is_recording := true, audio_data := [] }
       current_audio := none } : Coordinator).recorder.audio_data = [] ∧
    ((_on_stop_recording
        { machine := { wMachine with current_state := RECORDING }
          recorder := { is_recording := true, audio_data := [] }
          current_audio := none } wBehOk 9).2 = false ∧
     (_on_stop_recording
        { machine := { wMachine with current_state := RECORDING }
          recorder := { is_recording := true, audio_data := [] }
          current_audio := none } wBehOk 9).1.machine.current_state = IDLE ∧
     (_on_stop_recording
        { machine := { wMachine with current_state := RECORDING }
          recorder := { is_recording := true, audio_data := [] }
          current_audio := none } wBehOk 9).1.machine.state_history =
       ({ wMachine with current_state := RECORDING } : Machine).state_history ++ [(IDLE, 9)] ∧
     (_on_stop_recording
        { machine := { wMachine with current_state := RECORDING }
          recorder := { is_recording := true, audio_data := [] }
          current_audio := none } wBehOk 9).1.current_audio = none) :=
  ⟨rfl, rfl,
   C6_zero_capture_goes_idle
     { machine := { wMachine with current_state := RECORDING }
       recorder := { is_recording := true, audio_data := [] }
       current_audio := none } wBehOk 9 rfl rfl⟩

/-- Result of `WhisperEngine.transcribe`. -/
structure TranscribeResult where
  text : String
  language : String
deriving DecidableEq, Repr

/-- `VoiceModeApp._copy_to_clipboard`: a write failure is caught, logged and
re-raised, so the error propagates to the caller; a success is silent. -/
def _copy_to_clipboard (writeResult : Except String Unit) : Except String Unit :=
  match writeResult with
  | Except.ok u => Except.ok u
  | Except.error e => Except.error e

/-- `VoiceModeApp._process_audio`, run on the background thread.  External
outcomes are parameters: whether the engine object exists, the engine's
transcription outcome, and the clipboard write outcome; `t1`/`t2` are the
clock readings of the (at most two) `transition_to` calls.  Returns the
machine after the run and the trace of `transition_to` calls made, each as
`(target, payload, returned success)`.  The body is one `try` block: any
raised message `e` falls through to a single `transition_to(ERROR, error=e)`
and the function returns (no retry). -/
def _process_audio (m : Machine) (beh : CallbackBehavior)
    (current_audio : Option (List Int)) (engine_loaded : Bool)
    (engineResult : Except String TranscribeResult)
    (writeResult : Except String Unit) (t1 t2 : Nat) :
    Machine × List (AppState × Payload × Bool) :=
  if engine_loaded = false ∨ current_audio = none then
    let e := "Whisper engine not initialized or no audio to process"
    let r := transition_to m beh ERROR [("error", e)] t1
    (r.2.1, [(ERROR, [("error", e)], r.1)])
  else
    match engineResult with
    | Except.error e =>
        let r := transition_to m beh ERROR [("error", e)] t1
        (r.2.1, [(ERROR, [("error", e)], r.1)])
    | Except.ok _result =>
        let r1 := transition_to m beh COPYING [] t1
        match _copy_to_clipboard writeResult with
        | Except.error e =>
            let r2 := transition_to r1.2.1 beh ERROR [("error", e)] t2
            (r2.2.1, [(COPYING, [], r1.1), (ERROR, [("error", e)], r2.1)])
        | Except.ok _ =>
            let r2 := transition_to r1.2.1 beh IDLE [] t2
            (r2.2.1, [(COPYING, [], r1.1), (IDLE, [], r2.1)])

/-- C7: starting from PROCESSING with a captured buffer and a loaded engine,
if the engine fails with message `msg`, or the engine succeeds and the
clipboard write fails with message `msg` (the failure is re-raised, not
swallowed), then the run makes exactly one successful
`transition_to(ERROR, error := msg)`, that ERROR transition is the last call
made, and the machine ends in ERROR with state-data key "error" equal to
`msg`. -/
theorem C7_failure_to_error (m : Machine) (beh : CallbackBehavior)
    (audio : List Int) (engineResult : Except String TranscribeResult)
    (writeResult : Except String Unit) (tr : TranscribeResult)
    (msg : String) (t1 t2 : Nat)
    (hp : m.current_state = PROCESSING)
    (hfail : engineResult = Except.error msg ∨
             (engineResult = Except.ok tr ∧ writeResult = Except.error msg)) :
    ((_process_audio m beh (some audio) true engineResult writeResult t1 t2).2.filter
        (fun x => x.1 = ERROR)) = [(ERROR, [("error", msg)], true)] ∧
    (_process_audio m beh (some audio) true engineResult writeResult t1 t2).2.getLast? =
      some (ERROR, [("error", msg)], true) ∧
    (_process_audio m beh (some audio) true engineResult writeResult t1 t2).1.current_state =
      ERROR ∧
    (_process_audio m beh (some audio) true engineResult writeResult t1 t2).1.state_data =
      [("error", msg)] ∧
    get_state_data
      (_process_audio m beh (some audio) true engineResult writeResult t1 t2).1 "error" =
      some msg := by
  have hvE : ∀ s : AppState, _is_valid_transition s ERROR = true := by decide
  have hvC : _is_valid_transition PROCESSING COPYING = true := by decide
  rcases hfail with he | ⟨he, hw⟩
  · subst he
    simp [_process_audio, transition_to, hp, hvE, get_state_data]
  · subst he; subst hw
    simp [_process_audio, _copy_to_clipboard, transition_to, hp, hvE, hvC, get_state_data]

/-- A machine sitting in PROCESSING, used as the C7 witness input. -/
def pMachine : Machine :=
  { wMachine with current_state := PROCESSING }

/-- Witness for C7: engine failure "model not loaded" from PROCESSING. -/
theorem C7_failure_to_error_witness :
    pMachine.current_state = PROCESSING ∧
    (((Except.error "model not loaded" : Except String TranscribeResult) =
        Except.error "model not loaded" ∨
      ((Except.error "model not loaded" : Except String TranscribeResult) =
        Except.ok ⟨"", ""⟩ ∧ (Except.ok () : Except String Unit) = Except.error "model not loaded")) ∧
     (((_process_audio pMachine wBehOk (some [0]) true (Except.error "model not loaded")
          (Except.ok ()) 5 6).2.filter (fun x => x.1 = ERROR)) =
        [(ERROR, [("error", "model not loaded")], true)] ∧
      (_process_audio pMachine wBehOk (some [0]) true (Except.error "model not loaded")
          (Except.ok ()) 5 6).2.getLast? =
        some (ERROR, [("error", "model not loaded")], true) ∧
      (_process_audio pMachine wBehOk (some [0]) true (Except.error "model not loaded")
          (Except.ok ()) 5 6).1.current_state = ERROR ∧
      (_process_audio pMachine wBehOk (some [0]) true (Except.error "model not loaded")
          (Except.ok ()) 5 6).1.state_data = [("error", "model not loaded")] ∧
      get_state_data
        (_process_audio pMachine wBehOk (some [0]) true (Except.error "model not loaded")
          (Except.ok ()) 5 6).1 "error" = some "model not loaded")) :=
  ⟨rfl, Or.inl rfl,
   C7_failure_to_error pMachine wBehOk [0] (Except.error "model not loaded")
     (Except.ok ()) ⟨"", ""⟩ "model not loaded" 5 6 rfl (Or.inl rfl)⟩

/-- `MainThreadBridge` of `app.py`: the three pending-operation slots,
generic in the type of the audio-level value stored. -/
structure MainThreadBridge (α : Type) where
  _pending_show : Bool
  _pending_hide : Bool
  _pending_audio_level : Option α

/-- `MainThreadBridge.request_show_recording`. -/
def request_show_recording {α : Type} (b : MainThreadBridge α) : MainThreadBridge α :=
  { b with _pending_show := true, _pending_hide := false }

/-- `MainThreadBridge.request_hide_recording`. -/
def request_hide_recording {α : Type} (b : MainThreadBridge α) : MainThreadBridge α :=
  { b with _pending_hide := true, _pending_show := false }

/-- `MainThreadBridge.request_update_audio_level(level)`: overwrites the
pending-level slot. -/
def request_update_audio_level {α : Type} (b : MainThreadBridge α) (level : α) :
    MainThreadBridge α :=
  { b with _pending_audio_level := some level }

/-- `MainThreadBridge.get_and_clear_pending_operations()`: returns
`(show, hide, level)` and clears all three slots. -/
def get_and_clear_pending_operations {α : Type} (b : MainThreadBridge α) :
    (Bool × Bool × Option α) × MainThreadBridge α :=
  ((b._pending_show, b._pending_hide, b._pending_audio_level),
   { _pending_show := false, _pending_hide := false, _pending_audio_level := none })

/-- C8: the audio-level slot is latest-wins.  Requesting level `a` then `b`
and draining yields exactly one level, `b`; two consecutive requests leave
the bridge exactly as a single request of the later value would (so `a` is
never observable); and the drain clears the slot, so a further drain with no
new request yields no level. -/
theorem C8_bridge_level_coalescing {α : Type} (b : MainThreadBridge α) (a c : α) :
    (get_and_clear_pending_operations
       (request_update_audio_level (request_update_audio_level b a) c)).1.2.2 = some c ∧
    request_update_audio_level (request_update_audio_level b a) c =
      request_update_audio_level b c ∧
    (get_and_clear_pending_operations
       (request_update_audio_level (request_update_audio_level b a) c)).2._pending_audio_level
      = none ∧
    (get_and_clear_pending_operations
       (get_and_clear_pending_operations
         (request_update_audio_level (request_update_audio_level b a) c)).2).1.2.2 = none :=
  ⟨rfl, rfl, rfl, rfl⟩

/-- C10: a fresh `StateMachine` starts in INITIALIZING with no previous
state, empty history and empty state data, and `get_state_duration` on any
machine with empty history returns 0 (it does not fail). -/
theorem C10_fresh_machine_wellformed (m : Machine) (now : Nat)
    (h : m.state_history = []) :
    mkStateMachine.current_state = INITIALIZING ∧
    mkStateMachine.previous_state = none ∧
    mkStateMachine.state_history = [] ∧
    mkStateMachine.state_data = [] ∧
    get_state_duration m now = 0 := by
  refine ⟨rfl, rfl, rfl, rfl, ?_⟩
  simp [get_state_duration, h]

/-- Witness for C10: the fresh machine itself at clock reading 42. -/
theorem C10_fresh_machine_wellformed_witness :
    mkStateMachine.state_history = [] ∧
    (mkStateMachine.current_state = INITIALIZING ∧
     mkStateMachine.previous_state = none ∧
     mkStateMachine.state_history = [] ∧
     mkStateMachine.state_data = [] ∧
     get_state_duration mkStateMachine 42 = 0) :=
  ⟨rfl, C10_fresh_machine_wellformed mkStateMachine 42 rfl⟩
